import Mathlib

/-!
Verification of the loan-prequalification event pipeline.

Shallow embedding of the repository's core components:
* `CibilService` (credit-service/app/logic.py): deterministic score computation,
  with Python's `random.seed`/`random.randint` abstracted as a parameter
  `randint : Nat → Int` (a pure function of the seed, as Python's module-level
  Mersenne Twister is after `random.seed`), and `hashlib.sha256` implemented
  concretely below.
* `DecisionService` (decision-service/app/logic.py): decision rules.
* The idempotent consumers (credit-service/app/consumer.py,
  decision-service/app/consumer.py) over an explicit database state.
* `ApplicationRepository` (decision-service/app/repository.py): optimistic
  locking with retry.
* `CircuitBreaker` and `OutboxPublisher` (prequal-api/app/outbox_publisher.py).

Python numeric values (`float`) are modelled as exact rationals `ℚ`; the
decision and scoring arithmetic of the source stays within ranges where this
is faithful.  Wall-clock readings are explicit parameters.
-/

namespace LoanPrequal

/-! ### Bytes and SHA-256 (the `hashlib.sha256` library call) -/

/-- One 32-bit word represented as a `Nat` below `2 ^ 32`. -/
def w32 : Nat := 4294967296

def add32 (a b : Nat) : Nat := (a + b) % w32

def rotr32 (x n : Nat) : Nat := ((x >>> n) + ((x <<< (32 - n)) % w32)) % w32

def shr32 (x n : Nat) : Nat := x >>> n

def xor3 (a b c : Nat) : Nat := Nat.xor (Nat.xor a b) c

def not32 (x : Nat) : Nat := w32 - 1 - x % w32

def sha256Kpart0 : List Nat :=
  [
   1116352408, 1899447441, 3049323471, 3921009573,
   961987163, 1508970993, 2453635748, 2870763221,
   3624381080, 310598401, 607225278, 1426881987,
   1925078388, 2162078206, 2614888103, 3248222580]

def sha256Kpart1 : List Nat :=
  [
   3835390401, 4022224774, 264347078, 604807628,
   770255983, 1249150122, 1555081692, 1996064986,
   2554220882, 2821834349, 2952996808, 3210313671,
   3336571891, 3584528711, 113926993, 338241895]

def sha256Kpart2 : List Nat :=
  [
   666307205, 773529912, 1294757372, 1396182291,
   1695183700, 1986661051, 2177026350, 2456956037,
   2730485921, 2820302411, 3259730800, 3345764771,
   3516065817, 3600352804, 4094571909, 275423344]

def sha256Kpart3 : List Nat :=
  [
   430227734, 506948616, 659060556, 883997877,
   958139571, 1322822218, 1537002063, 1747873779,
   1955562222, 2024104815, 2227730452, 2361852424,
   2428436474, 2756734187, 3204031479, 3329325298]

def sha256K : List Nat :=
  sha256Kpart0 ++ sha256Kpart1 ++ sha256Kpart2 ++ sha256Kpart3

structure Hash8 where
  a : Nat
  b : Nat
  c : Nat
  d : Nat
  e : Nat
  f : Nat
  g : Nat
  h : Nat
deriving Repr, DecidableEq

def sha256H0 : Hash8 :=
  { a := 1779033703, b := 3144134277, c := 1013904242, d := 2773480762,
    e := 1359893119, f := 2600822924, g := 528734635, h := 1541459225 }

/-- Split a byte list into 64-byte chunks (fuel-indexed so that the kernel
can evaluate it; the fuel `l.length + 1` always suffices). -/
def chunks64Aux : Nat → List Nat → List (List Nat)
  | 0, _ => []
  | fuel + 1, l => if l.isEmpty then [] else l.take 64 :: chunks64Aux fuel (l.drop 64)

def chunks64 (l : List Nat) : List (List Nat) := chunks64Aux (l.length + 1) l

/-- Group bytes four at a time into big-endian 32-bit words. -/
def toWordsBE : List Nat → List Nat
  | b0 :: b1 :: b2 :: b3 :: rest =>
      (((b0 * 256 + b1) * 256 + b2) * 256 + b3) :: toWordsBE rest
  | _ => []

/-- SHA-256 padding: append 0x80, zero bytes, and the 64-bit big-endian
bit length, to a multiple of 64 bytes. -/
def sha256pad (msg : List Nat) : List Nat :=
  let len := msg.length
  let padLen := (55 + 64 - len % 64) % 64
  let bitLen := len * 8
  msg ++ [0x80] ++ List.replicate padLen 0 ++
    [(bitLen >>> 56) % 256, (bitLen >>> 48) % 256, (bitLen >>> 40) % 256,
     (bitLen >>> 32) % 256, (bitLen >>> 24) % 256, (bitLen >>> 16) % 256,
     (bitLen >>> 8) % 256, bitLen % 256]

def smallSigma0 (x : Nat) : Nat := xor3 (rotr32 x 7) (rotr32 x 18) (shr32 x 3)

def smallSigma1 (x : Nat) : Nat := xor3 (rotr32 x 17) (rotr32 x 19) (shr32 x 10)

def bigSigma0 (x : Nat) : Nat := xor3 (rotr32 x 2) (rotr32 x 13) (rotr32 x 22)

def bigSigma1 (x : Nat) : Nat := xor3 (rotr32 x 6) (rotr32 x 11) (rotr32 x 25)

def chFn (e f g : Nat) : Nat := Nat.xor (Nat.land e f) (Nat.land (not32 e) g)

def majFn (a b c : Nat) : Nat :=
  xor3 (Nat.land a b) (Nat.land a c) (Nat.land b c)

/-- Extend the 16 schedule words to 64. -/
def extendSchedule : Nat → Array Nat → Array Nat
  | 0, ws => ws
  | n + 1, ws =>
      let k := ws.size
      let nw := (ws.getD (k - 16) 0 + smallSigma0 (ws.getD (k - 15) 0) +
                 ws.getD (k - 7) 0 + smallSigma1 (ws.getD (k - 2) 0)) % w32
      extendSchedule n (ws.push nw)

def sha256Round (st : Hash8) (k w : Nat) : Hash8 :=
  let t1 := (st.h + bigSigma1 st.e + chFn st.e st.f st.g + k + w) % w32
  let t2 := (bigSigma0 st.a + majFn st.a st.b st.c) % w32
  { a := (t1 + t2) % w32, b := st.a, c := st.b, d := st.c,
    e := (st.d + t1) % w32, f := st.e, g := st.f, h := st.g }

def sha256Compress (hs : Hash8) (chunk : List Nat) : Hash8 :=
  let ws := extendSchedule 48 (toWordsBE chunk).toArray
  let st := (List.range 64).foldl
    (fun st i => sha256Round st (sha256K.getD i 0) (ws.getD i 0)) hs
  { a := add32 hs.a st.a, b := add32 hs.b st.b, c := add32 hs.c st.c,
    d := add32 hs.d st.d, e := add32 hs.e st.e, f := add32 hs.f st.f,
    g := add32 hs.g st.g, h := add32 hs.h st.h }

def wordBytesBE (x : Nat) : List Nat :=
  [(x >>> 24) % 256, (x >>> 16) % 256, (x >>> 8) % 256, x % 256]

/-- SHA-256 digest of a byte string, as a list of 32 bytes. -/
def sha256 (msg : List Nat) : List Nat :=
  let hs := (chunks64 (sha256pad msg)).foldl sha256Compress sha256H0
  wordBytesBE hs.a ++ wordBytesBE hs.b ++ wordBytesBE hs.c ++ wordBytesBE hs.d ++
    wordBytesBE hs.e ++ wordBytesBE hs.f ++ wordBytesBE hs.g ++ wordBytesBE hs.h

/-- UTF-8 encoding of one Unicode code point. -/
def utf8Bytes (c : Nat) : List Nat :=
  if c < 0x80 then [c]
  else if c < 0x800 then [0xC0 + c / 64, 0x80 + c % 64]
  else if c < 0x10000 then
    [0xE0 + c / 4096, 0x80 + (c / 64) % 64, 0x80 + c % 64]
  else
    [0xF0 + c / 262144, 0x80 + (c / 4096) % 64, 0x80 + (c / 64) % 64,
     0x80 + c % 64]

/-- UTF-8 bytes of a string (Python `str.encode()`). -/
def strBytes (s : String) : List Nat :=
  s.data.foldr (fun c acc => utf8Bytes c.toNat ++ acc) []

/-- `int.from_bytes(bs, byteorder="big")`. -/
def fromBytesBE (bs : List Nat) : Nat := bs.foldl (fun a b => a * 256 + b) 0

/-! ### Message payloads

A JSON object as it travels on the bus, restricted to the keys the code
reads or writes.  A `none` field models an absent key; `Option.getD`
models Python's `dict.get(key, default)`. -/

structure Payload where
  application_id : Option String := none
  pan_number : Option String := none
  pan_number_encrypted : Option String := none
  pan_number_hash : Option String := none
  first_name : Option String := none
  last_name : Option String := none
  date_of_birth : Option String := none
  email : Option String := none
  phone_number : Option String := none
  requested_amount : Option ℚ := none
  monthly_income_inr : Option ℚ := none
  loan_amount_inr : Option ℚ := none
  loan_type : Option String := none
  applicant_name : Option String := none
  status : Option String := none
  created_at : Option String := none
deriving Repr, DecidableEq

/-- Python's `str(x)` for an optional value (`str(None) = "None"`), used where
the code interpolates `dict.get(...)` results into strings. -/
def optStr : Option String → String
  | some s => s
  | none => "None"

/-- Python's `str.upper()` (ASCII range, which covers the loan-type values). -/
def pyUpper (s : String) : String := String.mk (s.data.map Char.toUpper)

/-! ### CibilService (credit-service/app/logic.py) -/

namespace CibilService

/-- `TEST_PAN_SCORES`: test PAN → predetermined score. -/
def TEST_PAN_SCORES : List (String × Int) := [("ABCDE1234F", 790), ("FGHIJ5678K", 610)]

/-- `CibilService._generate_seed`: first 8 bytes of SHA-256 of the
application id, big-endian unsigned. -/
def generate_seed (application_id : String) : Nat :=
  fromBytesBE ((sha256 (strBytes application_id)).take 8)

/-- `CibilService.calculate_score`.  `randint` stands for the pure function
`seed ↦ (random.seed(seed); random.randint(-5, 5))` of Python's Mersenne
Twister; theorems assume only its documented range `[-5, 5]`. -/
def calculate_score (randint : Nat → Int) (d : Payload) : Int :=
  let pan_number := d.pan_number.getD ""
  match TEST_PAN_SCORES.lookup pan_number with
  | some s => s
  | none =>
    let score : Int := 650
    let monthly_income := d.monthly_income_inr.getD 0
    let score := if monthly_income > 75000 then score + 40
                 else if monthly_income < 30000 then score - 20
                 else score
    let loan_type := pyUpper (d.loan_type.getD "")
    let score := if loan_type = "PERSONAL" then score - 10
                 else if loan_type = "HOME" then score + 10
                 else score
    let application_id := optStr' d.application_id
    let seed := generate_seed application_id
    let score := score + randint seed
    max 300 (min 900 score)
where
  /-- `str(application_data.get("application_id", ""))` — the default is
  `""`, so an absent key renders as `""` here (not `"None"`). -/
  optStr' : Option String → String
  | some s => s
  | none => ""

/-- Credit report produced by `CibilService.get_credit_report`. -/
structure CreditReport where
  application_id : String
  pan_number : Option String
  applicant_name : Option String
  cibil_score : Int
  credit_report_generated_at : String
deriving Repr, DecidableEq

/-- `CibilService.get_credit_report` (`now` stands for
`datetime.utcnow().isoformat()`). -/
def get_credit_report (randint : Nat → Int) (now : String) (d : Payload) : CreditReport :=
  { application_id := optStr d.application_id
    pan_number := d.pan_number
    applicant_name := d.applicant_name
    cibil_score := calculate_score randint d
    credit_report_generated_at := now }

end CibilService

/-! ### DecisionService (decision-service/app/logic.py) -/

namespace DecisionService

inductive DecisionStatus where
  | PRE_APPROVED
  | REJECTED
  | MANUAL_REVIEW
deriving Repr, DecidableEq

/-- `DecisionStatus.value` — the stored string. -/
def DecisionStatus.value : DecisionStatus → String
  | .PRE_APPROVED => "PRE_APPROVED"
  | .REJECTED => "REJECTED"
  | .MANUAL_REVIEW => "MANUAL_REVIEW"

def MINIMUM_CIBIL_SCORE : Int := 650

def LOAN_TERM_MONTHS : ℚ := 48

/-- The decision reason: the source builds a formatted string carrying the
score and the two compared figures; the numeric `f"{...:,.2f}"` rendering is
abstracted, the carried data is kept. -/
inductive Reason where
  | belowThreshold (cibil_score : Int) (threshold : Int)
  | incomeSufficient (cibil_score : Int) (monthly_income required : ℚ) (loan_amount : ℚ)
  | incomeInsufficient (cibil_score : Int) (monthly_income required : ℚ) (loan_amount : ℚ)
deriving Repr, DecidableEq

/-- `DecisionService.evaluate`. -/
def evaluate (d : Payload) (cibil_score : Int) : DecisionStatus × Reason :=
  let monthly_income := d.monthly_income_inr.getD 0
  let loan_amount := d.loan_amount_inr.getD 0
  if cibil_score < MINIMUM_CIBIL_SCORE then
    (.REJECTED, .belowThreshold cibil_score MINIMUM_CIBIL_SCORE)
  else
    let required_monthly_income := loan_amount / LOAN_TERM_MONTHS
    if monthly_income > required_monthly_income then
      (.PRE_APPROVED, .incomeSufficient cibil_score monthly_income required_monthly_income loan_amount)
    else
      (.MANUAL_REVIEW, .incomeInsufficient cibil_score monthly_income required_monthly_income loan_amount)

/-- `DecisionService.calculate_max_approved_amount`. -/
def calculate_max_approved_amount (monthly_income : ℚ) (cibil_score : Int) : ℚ :=
  if cibil_score < MINIMUM_CIBIL_SCORE then 0
  else monthly_income * LOAN_TERM_MONTHS

structure Decision where
  application_id : Option String
  status : DecisionStatus
  decision_reason : Reason
  cibil_score : Int
  max_approved_amount : Option ℚ
deriving Repr, DecidableEq

/-- `DecisionService.make_decision`. -/
def make_decision (d : Payload) (cibil_score : Int) : Decision :=
  let (decision_status, decision_reason) := evaluate d cibil_score
  let monthly_income := d.monthly_income_inr.getD 0
  let max_approved := calculate_max_approved_amount monthly_income cibil_score
  { application_id := d.application_id
    status := decision_status
    decision_reason := decision_reason
    cibil_score := cibil_score
    max_approved_amount := if decision_status ≠ .REJECTED then some max_approved else none }

end DecisionService

/-! ### Intake Writer (prequal-api/app/services.py)

Only the outbox event payload matters to the claims; the encryption service
is the spec's black-box codec, modelled by the parameters `encrypt_pan_for_kafka`
and `hash_pan`. -/

/-- The fields of an `ApplicationCreateRequest` the outbox payload uses. -/
structure CreateRequest where
  pan_number : String
  first_name : String
  last_name : String
  date_of_birth : String
  email : String
  phone_number : String
  requested_amount : ℚ
deriving Repr, DecidableEq

/-- The `event_payload` dict built in `ApplicationService.create_application`
(step 5) for the `loan_applications_submitted` topic.  Note which keys exist:
`pan_number_encrypted` is present, `pan_number`, `monthly_income_inr` and
`loan_type` are not. -/
def submissionPayload (encrypt_pan_for_kafka : String → String)
    (hash_pan : String → String) (application_id : String)
    (request : CreateRequest) (created_at : String) : Payload :=
  { application_id := some application_id
    pan_number_encrypted := some (encrypt_pan_for_kafka request.pan_number)
    pan_number_hash := some (hash_pan request.pan_number)
    first_name := some request.first_name
    last_name := some request.last_name
    date_of_birth := some request.date_of_birth
    email := some request.email
    phone_number := some request.phone_number
    requested_amount := some request.requested_amount
    status := some "PENDING"
    created_at := some created_at }

/-! ### Kafka messages and the idempotency fingerprint -/

/-- The metadata and decoded payload of one bus message. -/
structure KafkaMeta where
  topic : String
  partition : Int
  offset : Int
deriving Repr, DecidableEq

/-- `message_id = f"{application_id}:{topic}:{partition}:{offset}"` as built in
both consumers (an absent `application_id` renders as Python's `"None"`). -/
def mkMessageId (application_id : Option String) (m : KafkaMeta) : String :=
  optStr application_id ++ ":" ++ m.topic ++ ":" ++ toString m.partition ++ ":"
    ++ toString m.offset

/-! ### Scoring Worker (credit-service/app/consumer.py) -/

namespace CreditConsumer

/-- Database state visible to the scoring worker: the idempotency ledger
(`processed_messages.message_id` values). -/
structure DB where
  processed : List String
deriving Repr, DecidableEq

/-- Result of the worker's `process_message`: the committed database state,
the credit reports produced to the output topic this call, and whether the
consumer advanced (committed) its bus offset. -/
structure StepResult where
  db : DB
  published : List CibilService.CreditReport
  offsetCommitted : Bool
deriving Repr, DecidableEq

/-- `CreditServiceConsumer.process_message`.

Parameters model the worker's collaborators:
`decrypt_pan_from_kafka` (may fail — `Except.error` is a raised exception),
`encrypt_pan_for_kafka`, `randint` (see `calculate_score`), `now` the
timestamp string, and `produceOk` the outcome of the Kafka produce call.
On any exception the transaction rolls back (state unchanged) and the offset
is not committed. -/
def process_message (decrypt_pan_from_kafka : String → Except String String)
    (encrypt_pan_for_kafka : String → String) (randint : Nat → Int)
    (now : String) (produceOk : Bool) (db : DB) (meta : KafkaMeta)
    (application_data : Payload) : StepResult :=
  let application_id := application_data.application_id
  let message_id := mkMessageId application_id meta
  if db.processed.contains message_id then
    { db := db, published := [], offsetCommitted := true }
  else
    -- `encrypted_pan_base64 = application_data.get("pan_number")`;
    -- `if encrypted_pan_base64:` — Python truthiness, `None` and `""` skip.
    let encrypted_pan_base64 := application_data.pan_number.getD ""
    let decRes : Except String Payload :=
      if encrypted_pan_base64 ≠ "" then
        (decrypt_pan_from_kafka encrypted_pan_base64).map
          (fun pan_plaintext => { application_data with pan_number := some pan_plaintext })
      else .ok application_data
    match decRes with
    | .error _ => { db := db, published := [], offsetCommitted := false }
    | .ok data =>
      let credit_report := CibilService.get_credit_report randint now data
      -- `if credit_report.get("pan_number"):` — truthiness again
      let credit_report :=
        if (credit_report.pan_number.getD "") ≠ "" then
          { credit_report with
            pan_number := some (encrypt_pan_for_kafka (credit_report.pan_number.getD "")) }
        else credit_report
      if produceOk then
        { db := { processed := message_id :: db.processed }
          published := [credit_report]
          offsetCommitted := true }
      else
        { db := db, published := [], offsetCommitted := false }

end CreditConsumer

/-! ### ApplicationRepository (decision-service/app/repository.py) -/

namespace Repo

/-- One row of the `applications` table (the columns the repository touches). -/
structure AppRow where
  application_id : String
  first_name : Option String := none
  last_name : Option String := none
  requested_amount : Option ℚ := none
  annual_income : Option ℚ := none
  status : String := "PENDING"
  credit_score : Option Int := none
  decision_reason : Option DecisionService.Reason := none
  max_approved_amount : Option ℚ := none
  version : Nat := 1
deriving Repr, DecidableEq

/-- The dict returned by `ApplicationRepository.get_application_by_id`
(`float(x) if x else 0` collapses SQL NULL — and 0 — to `0`). -/
structure AppFetched where
  application_id : String
  requested_amount : ℚ
  annual_income : ℚ
  status : String
  credit_score : Option Int
  version : Nat
deriving Repr, DecidableEq

def get_application_by_id (apps : List AppRow) (app_id : String) :
    Option AppFetched :=
  (apps.find? (fun r => r.application_id = app_id)).map (fun r =>
    { application_id := r.application_id
      requested_amount := r.requested_amount.getD 0
      annual_income := r.annual_income.getD 0
      status := r.status
      credit_score := r.credit_score
      version := r.version })

inductive RepoError where
  | optimisticLock
  | valueError
deriving Repr, DecidableEq

/-- The row mutation of the versioned `UPDATE` statement:
`SET status, credit_score, decision_reason, max_approved_amount,
version = version + 1, updated_at`. -/
def applyUpdate (status : String) (cibil_score : Int)
    (decision_reason : DecisionService.Reason) (max_approved_amount : Option ℚ)
    (r : AppRow) : AppRow :=
  { r with status := status, credit_score := some cibil_score,
           decision_reason := some decision_reason,
           max_approved_amount := max_approved_amount,
           version := r.version + 1 }

/-- `ApplicationRepository.update_status_with_version`: update every row
matching `application_id = app_id AND version = expected_version`; zero rows
affected raises `OptimisticLockError`. -/
def update_status_with_version (apps : List AppRow) (app_id : String)
    (status : String) (cibil_score : Int)
    (decision_reason : DecisionService.Reason) (max_approved_amount : Option ℚ)
    (expected_version : Nat) : Except RepoError (List AppRow) :=
  let hit := fun (r : AppRow) => r.application_id = app_id ∧ r.version = expected_version
  let rows_affected := (apps.filter (fun r => decide (hit r))).length
  if rows_affected = 0 then .error .optimisticLock
  else .ok (apps.map (fun r =>
    if hit r then applyUpdate status cibil_score decision_reason max_approved_amount r
    else r))

/-- Result of `update_with_retry`: either the table after a successful
versioned update, or the `return False` fall-through of the Python loop
(reachable only with `max_retries = 0`). -/
inductive RetryResult where
  | updated (apps : List AppRow)
  | returnedFalse
deriving Repr, DecidableEq

/-- `ApplicationRepository.update_with_retry`, recursion on the remaining
attempts.  `readDb attempt` and `updDb attempt` are the committed tables the
read and the `UPDATE` statement of that attempt observe (they differ exactly
when a concurrent writer commits in between).  A missing row at the read
raises `ValueError`; an `OptimisticLockError` on the last attempt
(`attempt = max_retries - 1`) propagates. -/
def update_with_retry_aux (readDb updDb : Nat → List AppRow) (app_id : String)
    (status : String) (cibil_score : Int)
    (decision_reason : DecisionService.Reason) (max_approved_amount : Option ℚ)
    (attempt : Nat) : Nat → Except RepoError RetryResult
  | 0 => .ok .returnedFalse
  | remaining + 1 =>
    match get_application_by_id (readDb attempt) app_id with
    | none => .error .valueError
    | some application =>
      let current_version := application.version
      match update_status_with_version (updDb attempt) app_id status cibil_score
          decision_reason max_approved_amount current_version with
      | .ok apps => .ok (.updated apps)
      | .error e =>
        if e = .optimisticLock ∧ remaining ≠ 0 then
          update_with_retry_aux readDb updDb app_id status cibil_score
            decision_reason max_approved_amount (attempt + 1) remaining
        else .error e

def update_with_retry (readDb updDb : Nat → List AppRow) (app_id : String)
    (status : String) (cibil_score : Int)
    (decision_reason : DecisionService.Reason) (max_approved_amount : Option ℚ)
    (max_retries : Nat := 3) : Except RepoError RetryResult :=
  update_with_retry_aux readDb updDb app_id status cibil_score decision_reason
    max_approved_amount 0 max_retries

end Repo

/-! ### Decision Worker (decision-service/app/consumer.py) -/

namespace DecisionConsumer

/-- Default `Settings.max_update_retries`. -/
def default_max_update_retries : Nat := 3

/-- Database state visible to the decision worker. -/
structure DB where
  applications : List Repo.AppRow
  processed : List String
deriving Repr, DecidableEq

/-- `process_message`'s committed outcome: the database state after the
call (unchanged on rollback) and whether the bus offset was committed. -/
structure StepResult where
  db : DB
  offsetCommitted : Bool
deriving Repr, DecidableEq

/-- The fields of a decoded `credit_reports_generated` message the decision
worker reads. -/
structure CreditReportMsg where
  application_id : Option String := none
  cibil_score : Option Int := none
deriving Repr, DecidableEq

/-- `DecisionServiceConsumer.process_message`.

`readDb`/`updDb` feed `update_with_retry` (see there); the worker's own
initial read and idempotency check use `db`.  An `OptimisticLockError` after
exhausted retries, or any other exception, rolls the transaction back and
does not commit the offset. -/
def process_message (readDb updDb : Nat → List Repo.AppRow)
    (max_update_retries : Nat) (db : DB) (meta : KafkaMeta)
    (credit_report : CreditReportMsg) : StepResult :=
  let application_id := credit_report.application_id
  let message_id := mkMessageId application_id meta
  if db.processed.contains message_id then
    { db := db, offsetCommitted := true }
  else
    match credit_report.cibil_score with
    | none => { db := db, offsetCommitted := true }
    | some cibil_score =>
      match Repo.get_application_by_id db.applications (optStr application_id) with
      | none => { db := db, offsetCommitted := true }
      | some application =>
        -- `annual_income / 12 if annual_income else 0`
        let annual_income := application.annual_income
        let monthly_income := if annual_income ≠ 0 then annual_income / 12 else 0
        let application_data : Payload :=
          { application_id := application_id
            monthly_income_inr := some monthly_income
            loan_amount_inr := some application.requested_amount }
        let decision := DecisionService.make_decision application_data cibil_score
        match Repo.update_with_retry readDb updDb (optStr application_id)
            decision.status.value decision.cibil_score decision.decision_reason
            decision.max_approved_amount max_update_retries with
        | .ok (.updated apps) =>
          { db := { applications := apps, processed := message_id :: db.processed }
            offsetCommitted := true }
        | .ok .returnedFalse =>
          { db := { applications := db.applications, processed := message_id :: db.processed }
            offsetCommitted := true }
        | .error .optimisticLock => { db := db, offsetCommitted := false }
        | .error .valueError => { db := db, offsetCommitted := false }

end DecisionConsumer

/-! ### CircuitBreaker (prequal-api/app/outbox_publisher.py) -/

namespace Outbox

inductive CBState where
  | CLOSED
  | OPEN
  | HALF_OPEN
deriving Repr, DecidableEq

structure CircuitBreaker where
  failure_threshold : Nat := 5
  timeout : ℚ := 30
  success_threshold : Nat := 2
  failure_count : Nat := 0
  success_count : Nat := 0
  state : CBState := .CLOSED
  last_failure_time : Option ℚ := none
deriving Repr, DecidableEq

/-- `CircuitBreaker._on_success`. -/
def on_success (cb : CircuitBreaker) : CircuitBreaker :=
  let cb := { cb with failure_count := 0 }
  if cb.state = .HALF_OPEN then
    let cb := { cb with success_count := cb.success_count + 1 }
    if cb.success_count ≥ cb.success_threshold then
      { cb with state := .CLOSED, success_count := 0 }
    else cb
  else cb

/-- `CircuitBreaker._on_failure` (`now` is `time.time()`). -/
def on_failure (cb : CircuitBreaker) (now : ℚ) : CircuitBreaker :=
  let cb := { cb with failure_count := cb.failure_count + 1,
                      last_failure_time := some now }
  match cb.state with
  | .HALF_OPEN => { cb with state := .OPEN, success_count := 0 }
  | .CLOSED =>
    if cb.failure_count ≥ cb.failure_threshold then { cb with state := .OPEN }
    else cb
  | .OPEN => cb

/-- Visible outcome of one `CircuitBreaker.call`. -/
inductive CallOutcome where
  /-- The breaker raised `KafkaException("Circuit breaker is OPEN")` without
  invoking the wrapped function. -/
  | failedFast
  /-- The wrapped function ran and returned. -/
  | succeeded
  /-- The wrapped function ran and raised; the exception propagates. -/
  | failed
deriving Repr, DecidableEq

/-- `CircuitBreaker.call`: the state check (possibly OPEN → HALF_OPEN on
elapsed timeout, else fail fast), then the wrapped call, whose failure is
`funcFails`.  In OPEN state the source dereferences `last_failure_time`
unconditionally; `none` there is unreachable (OPEN is only ever entered by
`_on_failure`, which sets it) and is modelled as failing fast. -/
def call (cb : CircuitBreaker) (now : ℚ) (funcFails : Bool) :
    CircuitBreaker × CallOutcome :=
  let checked : CircuitBreaker × Bool :=
    if cb.state = .OPEN then
      match cb.last_failure_time with
      | some t =>
        if now - t ≥ cb.timeout then
          ({ cb with state := .HALF_OPEN, success_count := 0 }, false)
        else (cb, true)
      | none => (cb, true)
    else (cb, false)
  if checked.2 then (checked.1, .failedFast)
  else if funcFails then (on_failure checked.1 now, .failed)
  else (on_success checked.1, .succeeded)

/-! ### OutboxPublisher (prequal-api/app/outbox_publisher.py) -/

/-- One row of `outbox_events` (timestamps as rationals). -/
structure OutboxEvent where
  id : Nat
  aggregate_id : String := ""
  event_type : String := ""
  payload : Payload := {}
  topic_name : String := ""
  partition_key : String := ""
  published : Bool := false
  published_at : Option ℚ := none
  error_message : Option String := none
  retry_count : Nat := 0
  created_at : ℚ := 0
deriving Repr, DecidableEq

/-- Default publisher tunables. -/
def default_batch_size : Nat := 10

def default_max_retries : Nat := 5

/-- The batch query: `published = FALSE AND retry_count < max_retries
ORDER BY created_at LIMIT batch_size`. -/
def select_batch (table : List OutboxEvent) (max_retries batch_size : Nat) :
    List OutboxEvent :=
  ((List.insertionSort (fun a b => a.created_at ≤ b.created_at)
      (table.filter (fun e => !e.published && e.retry_count < max_retries))).take
    batch_size)

/-- Python string slicing `s[:500]` (by characters). -/
def truncate500 (s : String) : String := String.mk (s.data.take 500)

/-- Success path of `_publish_event` after the flush returns. -/
def mark_published (now : ℚ) (e : OutboxEvent) : OutboxEvent :=
  { e with published := true, published_at := some now, error_message := none }

/-- `_handle_publish_failure`'s row mutation (the `db.commit()` it performs is
modelled at the cycle level). -/
def handle_publish_failure (e : OutboxEvent) (error_msg : String) : OutboxEvent :=
  { e with retry_count := e.retry_count + 1,
           error_message := some (truncate500 error_msg) }

/-- `UPDATE`-in-session semantics: replace the row with matching `id`. -/
def updateRow (table : List OutboxEvent) (e : OutboxEvent) : List OutboxEvent :=
  table.map (fun r => if r.id = e.id then e else r)

/-- Result of one `_poll_and_publish` batch cycle.  `commits` records every
`db.commit()` the cycle performed, in order, as the table state it made
durable. -/
structure CycleResult where
  table : List OutboxEvent
  commits : List (List OutboxEvent)
  breaker : CircuitBreaker
deriving Repr, DecidableEq

/-- One iteration of the cycle's event loop: attempt the publish through the
breaker; on success mark the row published in the session; on a raised
`KafkaException` (from the bus or the breaker's fail-fast) run
`_handle_publish_failure`, whose own `db.commit()` appends a commit. -/
def cycleStep (busFails : Nat → Bool) (busErr : Nat → String) (times : Nat → ℚ)
    (acc : List OutboxEvent × List (List OutboxEvent) × CircuitBreaker)
    (ie : Nat × OutboxEvent) :
    List OutboxEvent × List (List OutboxEvent) × CircuitBreaker :=
  let (tbl, commits, cb) := acc
  let (i, event) := ie
  let (cb', outcome) := call cb (times i) (busFails i)
  match outcome with
  | .succeeded => (updateRow tbl (mark_published (times i) event), commits, cb')
  | .failed =>
    let tbl' := updateRow tbl (handle_publish_failure event (busErr i))
    (tbl', commits ++ [tbl'], cb')
  | .failedFast =>
    let tbl' := updateRow tbl (handle_publish_failure event "Circuit breaker is OPEN")
    (tbl', commits ++ [tbl'], cb')

/-- How many of the cycle's publish attempts fail (bus failure or breaker
fail-fast), tracking the breaker state across the batch. -/
def cycleFailCount (busFails : Nat → Bool) (times : Nat → ℚ) :
    CircuitBreaker → List (Nat × OutboxEvent) → Nat
  | _, [] => 0
  | cb, (i, _) :: rest =>
    let (cb', outcome) := call cb (times i) (busFails i)
    (if outcome = .succeeded then 0 else 1) + cycleFailCount busFails times cb' rest

/-- `OutboxPublisher._poll_and_publish`.

`busFails i` / `busErr i` give the outcome and error text of the `i`-th
attempted Kafka produce+flush of this cycle, `times i` the wall clock at that
attempt.  A fail-fast from the breaker raises `KafkaException("Circuit
breaker is OPEN")`, which the loop handles exactly like a produce failure.
Each failure handler issues its own `db.commit()`; one final commit ends a
non-empty cycle. -/
def poll_and_publish (busFails : Nat → Bool) (busErr : Nat → String)
    (times : Nat → ℚ) (cb : CircuitBreaker) (table : List OutboxEvent)
    (max_retries : Nat := default_max_retries)
    (batch_size : Nat := default_batch_size) : CycleResult :=
  let events := select_batch table max_retries batch_size
  if events.isEmpty then
    { table := table, commits := [], breaker := cb }
  else
    let (tbl, commits, cb') :=
      events.enum.foldl (cycleStep busFails busErr times) (table, [], cb)
    { table := tbl, commits := commits ++ [tbl], breaker := cb' }

end Outbox

/-! ### Spec-side scoring formula (§4.4), for refinement comparison -/

/-- Spec §4.4 step 3: income adjustment. -/
def spec_income_adjustment (income : ℚ) : Int :=
  if income > 75000 then 40 else if income < 30000 then -20 else 0

/-- Spec §4.4 step 4: product adjustment (on the uppercased loan type;
values other than the three products adjust by 0). -/
def spec_product_adjustment (loan_type : String) : Int :=
  if loan_type = "PERSONAL" then -10 else if loan_type = "HOME" then 10 else 0

/-- Spec §4.4 step 6: clamp to `[300, 900]`. -/
def spec_clamp (x : Int) : Int := max 300 (min 900 x)

/-- The decision the Decision Worker stores for an application with the given
annual income and requested amount at the given score: `make_decision` on the
payload dict the worker builds, with `monthly_income_inr = annual / 12`
(decision-service/app/consumer.py lines 192-204). -/
def decisionFor (annual requested : ℚ) (score : Int) : DecisionService.Decision :=
  DecisionService.make_decision
    { monthly_income_inr := some (annual / 12), loan_amount_inr := some requested } score

/-- Fallback row used as the `List.getD` default when indexing tables. -/
def emptyRow : Repo.AppRow := { application_id := "" }

/-- Attempt `i` of the retry loop hits a version conflict: the read finds the
row, but by the time the `UPDATE` statement runs no row carries the version
the read returned. -/
def conflictAt (readDb updDb : Nat → List Repo.AppRow) (app_id : String) (i : Nat) : Prop :=
  ∃ a, Repo.get_application_by_id (readDb i) app_id = some a ∧
    ∀ r ∈ updDb i, ¬(r.application_id = app_id ∧ r.version = a.version)

/-! ## Helper lemmas -/

lemma lookup_test_pan_none {pan : String} (h1 : pan ≠ "ABCDE1234F")
    (h2 : pan ≠ "FGHIJ5678K") : CibilService.TEST_PAN_SCORES.lookup pan = none := by
  have hb1 : (pan == "ABCDE1234F") = false := by simpa using h1
  have hb2 : (pan == "FGHIJ5678K") = false := by simpa using h2
  simp [CibilService.TEST_PAN_SCORES, List.lookup, hb1, hb2]

/-- On a non-test PAN, the source's sequential adjustments compute exactly the
spec's clamped sum. -/
lemma calculate_score_eq_formula (randint : Nat → Int) (d : Payload)
    (hp1 : d.pan_number.getD "" ≠ "ABCDE1234F")
    (hp2 : d.pan_number.getD "" ≠ "FGHIJ5678K") :
    CibilService.calculate_score randint d =
      spec_clamp (650 + spec_income_adjustment (d.monthly_income_inr.getD 0)
        + spec_product_adjustment (pyUpper (d.loan_type.getD ""))
        + randint (CibilService.generate_seed
            (CibilService.calculate_score.optStr' d.application_id))) := by
  simp only [CibilService.calculate_score, lookup_test_pan_none hp1 hp2, spec_clamp,
    spec_income_adjustment, spec_product_adjustment]
  split_ifs <;> omega

lemma calculate_score_test_high (randint : Nat → Int) (d : Payload)
    (hp : d.pan_number.getD "" = "ABCDE1234F") :
    CibilService.calculate_score randint d = 790 := by
  simp [CibilService.calculate_score, CibilService.TEST_PAN_SCORES, List.lookup, hp]

lemma calculate_score_test_low (randint : Nat → Int) (d : Payload)
    (hp : d.pan_number.getD "" = "FGHIJ5678K") :
    CibilService.calculate_score randint d = 610 := by
  simp [CibilService.calculate_score, CibilService.TEST_PAN_SCORES, List.lookup, hp]

lemma calculate_score_range (randint : Nat → Int) (d : Payload) :
    300 ≤ CibilService.calculate_score randint d ∧
    CibilService.calculate_score randint d ≤ 900 := by
  by_cases hp1 : d.pan_number.getD "" = "ABCDE1234F"
  · rw [calculate_score_test_high randint d hp1]; norm_num
  · by_cases hp2 : d.pan_number.getD "" = "FGHIJ5678K"
    · rw [calculate_score_test_low randint d hp2]; norm_num
    · rw [calculate_score_eq_formula randint d hp1 hp2]
      unfold spec_clamp
      exact ⟨le_max_left _ _, max_le (by norm_num) (min_le_left _ _)⟩

/-- Any score below 650 is rejected, whatever the payload. -/
lemma make_decision_rejected {score : Int} (h : score < 650) (d : Payload) :
    (DecisionService.make_decision d score).status = .REJECTED := by
  unfold DecisionService.make_decision DecisionService.evaluate
  rw [if_pos (by simpa [DecisionService.MINIMUM_CIBIL_SCORE] using h)]

/-- A payload with a non-test PAN and no `monthly_income_inr` / `loan_type`
keys scores `clamp (650 − 20 + 0 + jitter)`, which stays in `[625, 635]` and
below the 650 threshold. -/
lemma score_when_fields_missing (randint : Nat → Int)
    (hr : ∀ s, -5 ≤ randint s ∧ randint s ≤ 5) (d : Payload)
    (hp1 : d.pan_number.getD "" ≠ "ABCDE1234F")
    (hp2 : d.pan_number.getD "" ≠ "FGHIJ5678K")
    (hmi : d.monthly_income_inr = none) (hlt : d.loan_type = none) :
    CibilService.calculate_score randint d =
      spec_clamp (630 + randint (CibilService.generate_seed
        (CibilService.calculate_score.optStr' d.application_id))) ∧
    625 ≤ CibilService.calculate_score randint d ∧
    CibilService.calculate_score randint d ≤ 635 ∧
    CibilService.calculate_score randint d < 650 := by
  have heq := calculate_score_eq_formula randint d hp1 hp2
  rw [hmi, hlt] at heq
  have hadj : spec_income_adjustment ((none : Option ℚ).getD 0) = -20 := by
    norm_num [spec_income_adjustment]
  have hprod : spec_product_adjustment (pyUpper ((none : Option String).getD "")) = 0 := by
    decide
  rw [hadj, hprod] at heq
  norm_num at heq
  obtain ⟨hlo, hhi⟩ := hr (CibilService.generate_seed
    (CibilService.calculate_score.optStr' d.application_id))
  have hcl : spec_clamp (630 + randint (CibilService.generate_seed
      (CibilService.calculate_score.optStr' d.application_id)))
      = 630 + randint (CibilService.generate_seed
        (CibilService.calculate_score.optStr' d.application_id)) := by
    unfold spec_clamp
    rw [min_eq_right (by omega), max_eq_right (by omega)]
  refine ⟨?_, ?_, ?_, ?_⟩ <;> rw [heq, hcl] <;> omega

/-- If every attempt of the window hits a version conflict, the retry loop
raises `OptimisticLockError`. -/
lemma retry_all_conflicts (readDb updDb : Nat → List Repo.AppRow) (app_id st : String)
    (sc : Int) (rs : DecisionService.Reason) (ma : Option ℚ) :
    ∀ remaining attempt, 0 < remaining →
    (∀ i, attempt ≤ i → i < attempt + remaining →
      ∃ a, Repo.get_application_by_id (readDb i) app_id = some a ∧
        ∀ r ∈ updDb i, ¬(r.application_id = app_id ∧ r.version = a.version)) →
    Repo.update_with_retry_aux readDb updDb app_id st sc rs ma attempt remaining
      = .error .optimisticLock := by
  intro remaining
  induction remaining with
  | zero => intro _ h; exact absurd h (lt_irrefl 0)
  | succ n ih =>
    intro attempt _ hconf
    obtain ⟨a, hread, hupd⟩ := hconf attempt le_rfl (by omega)
    have hf : (updDb attempt).filter
        (fun r => decide (r.application_id = app_id ∧ r.version = a.version)) = [] :=
      List.filter_eq_nil_iff.mpr (fun r hr => by simpa using hupd r hr)
    have herr : Repo.update_status_with_version (updDb attempt) app_id st sc rs ma
        a.version = .error .optimisticLock := by
      unfold Repo.update_status_with_version
      simp [hf]
      exact fun r hr h1 h2 => hupd r hr ⟨h1, h2⟩
    simp only [Repo.update_with_retry_aux, hread, herr]
    rcases n with _ | m
    · simp
    · simp only [ne_eq, Nat.succ_ne_zero, not_false_eq_true, and_true, if_pos rfl,
        reduceIte]
      exact ih (attempt + 1) (Nat.succ_pos m)
        (fun i h1 h2 => hconf i (by omega) (by omega))

/-- If all attempts but the last conflict and the last attempt's `UPDATE`
succeeds, the retry loop returns the updated table. -/
lemma retry_recovers (readDb updDb : Nat → List Repo.AppRow) (app_id st : String)
    (sc : Int) (rs : DecisionService.Reason) (ma : Option ℚ) :
    ∀ remaining attempt (tbl : List Repo.AppRow), 0 < remaining →
    (∀ i, attempt ≤ i → i + 1 < attempt + remaining →
      ∃ a, Repo.get_application_by_id (readDb i) app_id = some a ∧
        ∀ r ∈ updDb i, ¬(r.application_id = app_id ∧ r.version = a.version)) →
    (∃ a, Repo.get_application_by_id (readDb (attempt + remaining - 1)) app_id = some a ∧
      Repo.update_status_with_version (updDb (attempt + remaining - 1)) app_id st sc rs ma
        a.version = .ok tbl) →
    Repo.update_with_retry_aux readDb updDb app_id st sc rs ma attempt remaining
      = .ok (.updated tbl) := by
  intro remaining
  induction remaining with
  | zero => intro _ _ h; exact absurd h (lt_irrefl 0)
  | succ n ih =>
    intro attempt tbl _ hconf hsucc
    rcases n with _ | m
    · obtain ⟨a, hread, hok⟩ := hsucc
      simp only [Nat.add_sub_cancel] at hread hok
      simp only [Repo.update_with_retry_aux, hread, hok]
    · obtain ⟨a, hread, hupd⟩ := hconf attempt le_rfl (by omega)
      have hf : (updDb attempt).filter
          (fun r => decide (r.application_id = app_id ∧ r.version = a.version)) = [] :=
        List.filter_eq_nil_iff.mpr (fun r hr => by simpa using hupd r hr)
      have herr : Repo.update_status_with_version (updDb attempt) app_id st sc rs ma
          a.version = .error .optimisticLock := by
        unfold Repo.update_status_with_version
        simp [hf]
        exact fun r hr h1 h2 => hupd r hr ⟨h1, h2⟩
      simp only [Repo.update_with_retry_aux, hread, herr]
      simp only [ne_eq, Nat.succ_ne_zero, not_false_eq_true, and_true, if_pos rfl,
        reduceIte]
      exact ih (attempt + 1) tbl (Nat.succ_pos m)
        (fun i h1 h2 => hconf i (by omega) (by omega))
        (by
          obtain ⟨a', ha1, ha2⟩ := hsucc
          refine ⟨a', ?_, ?_⟩
          · convert ha1 using 3
            omega
          · convert ha2 using 3
            omega)

/-! ## Claim theorems -/

/-- C2: the decision rules on `(annual_income, requested_amount, score)` with
`monthly_income = annual_income / 12`: score below 650 is REJECTED with no
max amount; at or above 650, strictly sufficient monthly income
(`> requested / 48`) is PRE_APPROVED and otherwise (including exact equality)
MANUAL_REVIEW, both with `max_approved_amount = monthly_income * 48`; in
particular 649 rejects and 650 with sufficient income pre-approves. -/
theorem decision_rules_correct (annual requested : ℚ) (score : Int) :
    (score < 650 →
      (decisionFor annual requested score).status = .REJECTED ∧
      (decisionFor annual requested score).max_approved_amount = none) ∧
    (650 ≤ score → annual / 12 > requested / 48 →
      (decisionFor annual requested score).status = .PRE_APPROVED ∧
      (decisionFor annual requested score).max_approved_amount = some (annual / 12 * 48)) ∧
    (650 ≤ score → annual / 12 ≤ requested / 48 →
      (decisionFor annual requested score).status = .MANUAL_REVIEW ∧
      (decisionFor annual requested score).max_approved_amount = some (annual / 12 * 48)) ∧
    (decisionFor annual requested 649).status = .REJECTED ∧
    (annual / 12 > requested / 48 →
      (decisionFor annual requested 650).status = .PRE_APPROVED) := by
  unfold decisionFor DecisionService.make_decision DecisionService.evaluate
    DecisionService.calculate_max_approved_amount
  simp only [DecisionService.MINIMUM_CIBIL_SCORE, DecisionService.LOAN_TERM_MONTHS,
    Option.getD_some]
  refine ⟨?_, ?_, ?_, ?_, ?_⟩
  · intro h
    split_ifs <;> simp_all
  · intro h1 h2
    split_ifs <;> simp_all <;> omega
  · intro h1 h2
    split_ifs <;> simp_all <;> linarith
  · split_ifs <;> simp_all
  · intro h
    split_ifs <;> simp_all <;> omega

/-- C2 witness: annual income 600,000 (monthly 50,000) against a 500,000 loan
at score 650 pre-approves with max amount 2,400,000. -/
theorem decision_rules_correct_witness :
    (decisionFor 600000 500000 650).status = .PRE_APPROVED ∧
    (decisionFor 600000 500000 650).max_approved_amount
        = some ((600000 : ℚ) / 12 * 48) :=
  (decision_rules_correct 600000 500000 650).2.1 (by norm_num) (by norm_num)

/-- C3: for a non-test PAN the score is the clamp to `[300, 900]` of
650 plus the income adjustment (+40 above 75,000, −20 below 30,000), the
product adjustment (−10 PERSONAL, +10 HOME, 0 AUTO) and a jitter drawn from
the generator seeded with the first 8 big-endian bytes of SHA-256 of the
aggregate id; test PANs return their mapped scores; the result always lies
in `[300, 900]`. -/
theorem scoring_matches_spec_formula (randint : Nat → Int)
    (hr : ∀ s, -5 ≤ randint s ∧ randint s ≤ 5) (d : Payload) :
    (d.pan_number.getD "" ≠ "ABCDE1234F" → d.pan_number.getD "" ≠ "FGHIJ5678K" →
      CibilService.calculate_score randint d =
        spec_clamp (650 + spec_income_adjustment (d.monthly_income_inr.getD 0)
          + spec_product_adjustment (pyUpper (d.loan_type.getD ""))
          + randint (CibilService.generate_seed
              (CibilService.calculate_score.optStr' d.application_id)))) ∧
    (∀ s, CibilService.generate_seed s = fromBytesBE ((sha256 (strBytes s)).take 8)) ∧
    (CibilService.calculate_score randint { d with pan_number := some "ABCDE1234F" } = 790) ∧
    (CibilService.calculate_score randint { d with pan_number := some "FGHIJ5678K" } = 610) ∧
    (∀ s, -5 ≤ randint (CibilService.generate_seed s) ∧
          randint (CibilService.generate_seed s) ≤ 5) ∧
    (spec_product_adjustment "PERSONAL" = -10 ∧ spec_product_adjustment "HOME" = 10 ∧
      spec_product_adjustment "AUTO" = 0) ∧
    (300 ≤ CibilService.calculate_score randint d ∧
      CibilService.calculate_score randint d ≤ 900) := by
  refine ⟨calculate_score_eq_formula randint d, fun s => rfl, ?_, ?_, fun s => hr _,
    ⟨by simp [spec_product_adjustment], by simp [spec_product_adjustment],
     by simp [spec_product_adjustment]⟩, calculate_score_range randint d⟩
  · exact calculate_score_test_high randint _ rfl
  · exact calculate_score_test_low randint _ rfl

/-- C3 witness: with the zero jitter function and the empty payload, the test
PAN maps to 790. -/
theorem scoring_matches_spec_formula_witness :
    CibilService.calculate_score (fun _ => 0)
      { ({} : Payload) with pan_number := some "ABCDE1234F" } = 790 :=
  (scoring_matches_spec_formula (fun _ => 0) (fun _ => by norm_num) {}).2.2.1

/-- C4: the scoring function is pure — it consults only the `pan_number`,
`monthly_income_inr`, `loan_type` and `application_id` entries of the payload
(plus the fixed jitter function of the seed), so two invocations agreeing on
those agree on the score, across any runs or processes. -/
theorem scoring_deterministic (randint : Nat → Int) (d1 d2 : Payload)
    (h1 : d1.pan_number = d2.pan_number)
    (h2 : d1.monthly_income_inr = d2.monthly_income_inr)
    (h3 : d1.loan_type = d2.loan_type)
    (h4 : d1.application_id = d2.application_id) :
    CibilService.calculate_score randint d1 = CibilService.calculate_score randint d2 := by
  unfold CibilService.calculate_score
  rw [h1, h2, h3, h4]

/-- C4 witness: two structurally equal payloads score equally. -/
theorem scoring_deterministic_witness :
    CibilService.calculate_score (fun _ => 0) { application_id := some "a" } =
      CibilService.calculate_score (fun _ => 0) { application_id := some "a" } :=
  scoring_deterministic (fun _ => 0) _ _ rfl rfl rfl rfl

/-- C5: replaying a message whose fingerprint is already in
`processed_messages` is a no-op in both workers: the database state is
returned unchanged (no application update, no outbox/bus output, no new
processed row) and the bus offset is committed. -/
theorem replay_is_noop
    (decrypt : String → Except String String) (encrypt : String → String)
    (randint : Nat → Int) (now : String) (produceOk : Bool)
    (cdb : CreditConsumer.DB) (cmeta : KafkaMeta) (d : Payload)
    (hc : mkMessageId d.application_id cmeta ∈ cdb.processed)
    (readDb updDb : Nat → List Repo.AppRow) (maxr : Nat)
    (ddb : DecisionConsumer.DB) (dmeta : KafkaMeta)
    (r : DecisionConsumer.CreditReportMsg)
    (hd : mkMessageId r.application_id dmeta ∈ ddb.processed) :
    CreditConsumer.process_message decrypt encrypt randint now produceOk cdb cmeta d
      = { db := cdb, published := [], offsetCommitted := true } ∧
    DecisionConsumer.process_message readDb updDb maxr ddb dmeta r
      = { db := ddb, offsetCommitted := true } := by
  constructor
  · unfold CreditConsumer.process_message
    simp [hc]
  · unfold DecisionConsumer.process_message
    simp [hd]

/-- C5 witness: a concrete already-processed fingerprint replayed through both
workers leaves both database states unchanged and commits the offset. -/
theorem replay_is_noop_witness :
    CreditConsumer.process_message (fun s => .ok s) id (fun _ => 0) "now" true
      ⟨["a:t:0:0"]⟩ ⟨"t", 0, 0⟩ { application_id := some "a" }
      = { db := ⟨["a:t:0:0"]⟩, published := [], offsetCommitted := true } ∧
    DecisionConsumer.process_message (fun _ => []) (fun _ => []) 3
      ⟨[], ["a:u:0:0"]⟩ ⟨"u", 0, 0⟩ { application_id := some "a" }
      = { db := ⟨[], ["a:u:0:0"]⟩, offsetCommitted := true } :=
  replay_is_noop (fun s => .ok s) id (fun _ => 0) "now" true
    ⟨["a:t:0:0"]⟩ ⟨"t", 0, 0⟩ { application_id := some "a" } (by decide)
    (fun _ => []) (fun _ => []) 3 ⟨[], ["a:u:0:0"]⟩ ⟨"u", 0, 0⟩
    { application_id := some "a" } (by decide)

/-- C6: a successful versioned update requires a stored row with exactly the
expected version, and changes affected rows' versions to exactly
`expected_version + 1` while leaving all other rows untouched; with only
stale versions present it affects 0 rows, raises `OptimisticLockError`, and
the would-be update is the identity on the table. -/
theorem versioned_update_correct (apps : List Repo.AppRow) (app_id status : String)
    (score : Int) (reason : DecisionService.Reason) (maxAmt : Option ℚ)
    (expected : Nat) :
    (∀ apps',
      Repo.update_status_with_version apps app_id status score reason maxAmt expected
        = .ok apps' →
      (∃ r ∈ apps, r.application_id = app_id ∧ r.version = expected) ∧
      apps'.length = apps.length ∧
      ∀ i, i < apps.length →
        (((apps.getD i emptyRow).application_id = app_id ∧
            (apps.getD i emptyRow).version = expected ∧
            apps'.getD i emptyRow
              = Repo.applyUpdate status score reason maxAmt (apps.getD i emptyRow) ∧
            (apps'.getD i emptyRow).version = (apps.getD i emptyRow).version + 1 ∧
            (apps'.getD i emptyRow).version = expected + 1) ∨
         (¬((apps.getD i emptyRow).application_id = app_id ∧
              (apps.getD i emptyRow).version = expected) ∧
            apps'.getD i emptyRow = apps.getD i emptyRow))) ∧
    ((∀ r ∈ apps, ¬(r.application_id = app_id ∧ r.version = expected)) →
      Repo.update_status_with_version apps app_id status score reason maxAmt expected
        = .error .optimisticLock ∧
      apps.map (fun r =>
        if r.application_id = app_id ∧ r.version = expected then
          Repo.applyUpdate status score reason maxAmt r
        else r) = apps) := by
  constructor
  · intro apps' h
    unfold Repo.update_status_with_version at h
    by_cases hz : (apps.filter
        (fun r => decide (r.application_id = app_id ∧ r.version = expected))).length = 0
    · rw [if_pos hz] at h
      exact absurd h (by simp)
    · rw [if_neg hz] at h
      have hmap : apps' = apps.map (fun r =>
          if r.application_id = app_id ∧ r.version = expected then
            Repo.applyUpdate status score reason maxAmt r
          else r) := by
        injection h with h'
        exact h'.symm
      refine ⟨?_, ?_, ?_⟩
      · have : apps.filter
            (fun r => decide (r.application_id = app_id ∧ r.version = expected)) ≠ [] := by
          intro hnil
          exact hz (by rw [hnil]; rfl)
        obtain ⟨r, hr⟩ := List.exists_mem_of_ne_nil _ this
        have := List.mem_filter.mp hr
        exact ⟨r, this.1, by simpa using this.2⟩
      · rw [hmap, List.length_map]
      · intro i hi
        have hget : apps'.getD i emptyRow =
            (if (apps.getD i emptyRow).application_id = app_id ∧
                (apps.getD i emptyRow).version = expected then
              Repo.applyUpdate status score reason maxAmt (apps.getD i emptyRow)
            else apps.getD i emptyRow) := by
          rw [hmap]
          rw [List.getD_eq_getElem?_getD, List.getD_eq_getElem?_getD,
            List.getElem?_map, List.getElem?_eq_getElem hi]
          rfl
        by_cases hhit : (apps.getD i emptyRow).application_id = app_id ∧
            (apps.getD i emptyRow).version = expected
        · left
          have heq : apps'.getD i emptyRow
              = Repo.applyUpdate status score reason maxAmt (apps.getD i emptyRow) := by
            rw [hget, if_pos hhit]
          refine ⟨hhit.1, hhit.2, heq, ?_, ?_⟩
          · rw [heq]; rfl
          · rw [heq]
            show (apps.getD i emptyRow).version + 1 = expected + 1
            rw [hhit.2]
        · right
          exact ⟨hhit, by rw [hget, if_neg hhit]⟩
  · intro hnone
    have hfil : apps.filter
        (fun r => decide (r.application_id = app_id ∧ r.version = expected)) = [] := by
      rw [List.filter_eq_nil_iff]
      intro r hr
      simpa using hnone r hr
    constructor
    · unfold Repo.update_status_with_version
      rw [if_pos (by rw [hfil]; rfl)]
    · have : ∀ r ∈ apps,
          (if r.application_id = app_id ∧ r.version = expected then
            Repo.applyUpdate status score reason maxAmt r
          else r) = r := fun r hr => if_neg (hnone r hr)
      calc apps.map _ = apps.map id := List.map_congr_left this
        _ = apps := List.map_id apps

/-- C6 witness: updating the one-row table at its current version 1
succeeds, and the table indeed held a row at the expected version. -/
theorem versioned_update_correct_witness :
    ∃ r ∈ [({ application_id := "x" } : Repo.AppRow)],
      r.application_id = "x" ∧ r.version = 1 :=
  (((versioned_update_correct [{ application_id := "x" }] "x" "PRE_APPROVED" 700
      (.belowThreshold 700 650) (some 100) 1).1)
    [Repo.applyUpdate "PRE_APPROVED" 700 (.belowThreshold 700 650) (some 100)
      { application_id := "x" }] rfl).1

/-- C7: when every attempt conflicts, `update_with_retry` (attempted
`max_update_retries` times, default 3) raises `OptimisticLockError`; when the
last attempt's update succeeds, the loop returns the updated table; on the
raised error the Decision Worker rolls back (the committed database state is
unchanged) and does not commit the bus offset, so the message is
redelivered. -/
theorem optimistic_retry_protocol
    (readDb updDb : Nat → List Repo.AppRow) (app_id st : String) (sc : Int)
    (rs : DecisionService.Reason) (ma : Option ℚ) (max_retries : Nat)
    (db : DecisionConsumer.DB) (meta : KafkaMeta)
    (report : DecisionConsumer.CreditReportMsg) (score : Int) (app : Repo.AppFetched) :
    (0 < max_retries →
      (∀ i, i < max_retries → conflictAt readDb updDb app_id i) →
      Repo.update_with_retry readDb updDb app_id st sc rs ma max_retries
        = .error .optimisticLock) ∧
    (∀ tbl, 0 < max_retries →
      (∀ i, i + 1 < max_retries → conflictAt readDb updDb app_id i) →
      (∃ a, Repo.get_application_by_id (readDb (max_retries - 1)) app_id = some a ∧
        Repo.update_status_with_version (updDb (max_retries - 1)) app_id st sc rs ma
          a.version = .ok tbl) →
      Repo.update_with_retry readDb updDb app_id st sc rs ma max_retries
        = .ok (.updated tbl)) ∧
    (mkMessageId report.application_id meta ∉ db.processed →
      report.cibil_score = some score →
      Repo.get_application_by_id db.applications (optStr report.application_id) = some app →
      0 < max_retries →
      (∀ i, i < max_retries →
        conflictAt readDb updDb (optStr report.application_id) i) →
      DecisionConsumer.process_message readDb updDb max_retries db meta report
        = { db := db, offsetCommitted := false }) ∧
    DecisionConsumer.default_max_update_retries = 3 := by
  refine ⟨?_, ?_, ?_, rfl⟩
  · intro hpos hconf
    exact retry_all_conflicts readDb updDb app_id st sc rs ma max_retries 0 hpos
      (fun i h1 h2 => hconf i (by omega))
  · intro tbl hpos hconf hsucc
    exact retry_recovers readDb updDb app_id st sc rs ma max_retries 0 tbl hpos
      (fun i h1 h2 => hconf i (by omega)) (by simpa using hsucc)
  · intro hfresh hscore happ hpos hconf
    have hc : db.processed.contains (mkMessageId report.application_id meta) = false := by
      simpa using hfresh
    have herr : ∀ (st' : String) (sc' : Int) (rs' : DecisionService.Reason)
        (ma' : Option ℚ),
        Repo.update_with_retry readDb updDb (optStr report.application_id)
          st' sc' rs' ma' max_retries = .error .optimisticLock := by
      intro st' sc' rs' ma'
      exact retry_all_conflicts readDb updDb _ st' sc' rs' ma' max_retries 0 hpos
        (fun i h1 h2 => hconf i (by omega))
    simp only [DecisionConsumer.process_message, hc, hscore, happ, herr]
    rfl

/-- C7 witness: with the stored version perpetually one ahead of the read
version, three retries exhaust, the transaction rolls back and the offset is
not committed. -/
theorem optimistic_retry_protocol_witness :
    DecisionConsumer.process_message (fun _ => [{ application_id := "x" }])
      (fun _ => [{ application_id := "x", version := 2 }]) 3
      ⟨[{ application_id := "x" }], []⟩ ⟨"u", 0, 0⟩
      { application_id := some "x", cibil_score := some 700 }
      = { db := ⟨[{ application_id := "x" }], []⟩, offsetCommitted := false } :=
  by
  refine (optimistic_retry_protocol (fun _ => [{ application_id := "x" }])
      (fun _ => [{ application_id := "x", version := 2 }]) "x" "s" 0
      (.belowThreshold 0 650) none 3 ⟨[{ application_id := "x" }], []⟩ ⟨"u", 0, 0⟩
      { application_id := some "x", cibil_score := some 700 } 700
      { application_id := "x", requested_amount := 0, annual_income := 0,
        status := "PENDING", credit_score := none, version := 1 }).2.2.1
    (by simp) rfl rfl (by norm_num) ?_
  intro i _
  refine ⟨⟨"x", 0, 0, "PENDING", none, 1⟩, rfl, ?_⟩
  intro r hr
  simp only at hr
  rw [List.mem_singleton] at hr
  subst hr
  decide

/-- C1: the spec's end-to-end scenario for the test PAN ABCDE1234F.  The
Scoring Worker does NOT decrypt the identifier (the intake payload carries
key `pan_number_encrypted`, the worker reads key `pan_number`), so the
mapped score 790 is never produced: the published report scores in
`[625, 635]` and the Decision Worker then stores REJECTED, not
PRE_APPROVED — evidence for the code bug. -/
theorem test_pan_submission_scored_as_nontest
    (encrypt hash : String → String) (decrypt : String → Except String String)
    (randint : Nat → Int) (hr : ∀ s, -5 ≤ randint s ∧ randint s ≤ 5)
    (appId created now : String) (req : CreateRequest)
    (_hpan : req.pan_number = "ABCDE1234F")
    (db : CreditConsumer.DB) (meta : KafkaMeta)
    (hfresh : mkMessageId (some appId) meta ∉ db.processed) :
    ∃ report : CibilService.CreditReport,
      (CreditConsumer.process_message decrypt encrypt randint now true db meta
          (submissionPayload encrypt hash appId req created)).published = [report] ∧
      report.cibil_score = spec_clamp (630 + randint (CibilService.generate_seed appId)) ∧
      625 ≤ report.cibil_score ∧ report.cibil_score ≤ 635 ∧
      report.cibil_score ≠ 790 ∧
      (∀ d' : Payload, (DecisionService.make_decision d' report.cibil_score).status
          = DecisionService.DecisionStatus.REJECTED) ∧
      (submissionPayload encrypt hash appId req created).pan_number = none ∧
      (submissionPayload encrypt hash appId req created).pan_number_encrypted
        = some (encrypt req.pan_number) := by
  have hc : db.processed.contains
      (mkMessageId (submissionPayload encrypt hash appId req created).application_id meta)
      = false := by
    simpa [submissionPayload] using hfresh
  have hproc : (CreditConsumer.process_message decrypt encrypt randint now true db meta
      (submissionPayload encrypt hash appId req created)).published
      = [CibilService.get_credit_report randint now
          (submissionPayload encrypt hash appId req created)] := by
    unfold CreditConsumer.process_message
    simp [hc, hfresh, submissionPayload, CibilService.get_credit_report]
  obtain ⟨h1, h2, h3, h4⟩ := score_when_fields_missing randint hr
    (submissionPayload encrypt hash appId req created)
    (by simp [submissionPayload]) (by simp [submissionPayload]) rfl rfl
  have hcs : (CibilService.get_credit_report randint now
      (submissionPayload encrypt hash appId req created)).cibil_score
      = CibilService.calculate_score randint
          (submissionPayload encrypt hash appId req created) := rfl
  refine ⟨CibilService.get_credit_report randint now
      (submissionPayload encrypt hash appId req created), hproc, ?_, ?_, ?_, ?_, ?_, rfl, rfl⟩
  · rw [hcs, h1]
    rfl
  · rw [hcs]; exact h2
  · rw [hcs]; exact h3
  · rw [hcs]; omega
  · intro d'
    rw [hcs]
    exact make_decision_rejected h4 d'

/-- C1 witness: a concrete fresh submission for the test PAN, evaluated
through the Scoring Worker with zero jitter. -/
theorem test_pan_submission_scored_as_nontest_witness :
    ∃ report : CibilService.CreditReport,
      (CreditConsumer.process_message (fun s => .ok s) id (fun _ => 0) "now" true
          ⟨[]⟩ ⟨"loan_applications_submitted", 0, 0⟩
          (submissionPayload id id "a"
            ⟨"ABCDE1234F", "R", "K", "1985-06-15", "r@x.com", "9876543210", 500000⟩
            "t")).published = [report] ∧
      report.cibil_score = spec_clamp (630 + 0) ∧
      625 ≤ report.cibil_score ∧ report.cibil_score ≤ 635 ∧
      report.cibil_score ≠ 790 ∧
      (∀ d' : Payload, (DecisionService.make_decision d' report.cibil_score).status
          = DecisionService.DecisionStatus.REJECTED) ∧
      (submissionPayload id id "a"
          ⟨"ABCDE1234F", "R", "K", "1985-06-15", "r@x.com", "9876543210", 500000⟩
          "t").pan_number = none ∧
      (submissionPayload id id "a"
          ⟨"ABCDE1234F", "R", "K", "1985-06-15", "r@x.com", "9876543210", 500000⟩
          "t").pan_number_encrypted = some (id "ABCDE1234F") :=
  test_pan_submission_scored_as_nontest id id (fun s => .ok s) (fun _ => 0)
    (fun _ => by norm_num) "a" "t" "now"
    ⟨"ABCDE1234F", "R", "K", "1985-06-15", "r@x.com", "9876543210", 500000⟩ rfl
    ⟨[]⟩ ⟨"loan_applications_submitted", 0, 0⟩ (by simp)

/-- C10: a payload with a non-test PAN and without the `monthly_income_inr`
and `loan_type` keys is scored with income treated as 0 (hence the −20
low-income adjustment) and no loan-type adjustment, so the score is
`clamp (650 − 20 + 0 + jitter) ∈ [625, 635]`, always below the 650
threshold; and every Intake Writer submission payload indeed lacks the
`pan_number`, `monthly_income_inr` and `loan_type` keys. -/
theorem submission_payload_scores_below_threshold (randint : Nat → Int)
    (hr : ∀ s, -5 ≤ randint s ∧ randint s ≤ 5) (d : Payload)
    (hp1 : d.pan_number.getD "" ≠ "ABCDE1234F")
    (hp2 : d.pan_number.getD "" ≠ "FGHIJ5678K")
    (hmi : d.monthly_income_inr = none) (hlt : d.loan_type = none)
    (encrypt hash : String → String) (appId created : String) (req : CreateRequest) :
    (CibilService.calculate_score randint d =
      spec_clamp (650 - 20 + 0 + randint (CibilService.generate_seed
        (CibilService.calculate_score.optStr' d.application_id)))) ∧
    625 ≤ CibilService.calculate_score randint d ∧
    CibilService.calculate_score randint d ≤ 635 ∧
    CibilService.calculate_score randint d < 650 ∧
    (submissionPayload encrypt hash appId req created).pan_number = none ∧
    (submissionPayload encrypt hash appId req created).monthly_income_inr = none ∧
    (submissionPayload encrypt hash appId req created).loan_type = none := by
  obtain ⟨h1, h2, h3, h4⟩ := score_when_fields_missing randint hr d hp1 hp2 hmi hlt
  exact ⟨by rw [h1]; norm_num, h2, h3, h4, rfl, rfl, rfl⟩

/-- C10 witness: the empty payload (no PAN, no income, no loan-type keys)
scores below 650 with zero jitter. -/
theorem submission_payload_scores_below_threshold_witness :
    CibilService.calculate_score (fun _ => 0) {} < 650 :=
  (submission_payload_scores_below_threshold (fun _ => 0) (fun _ => by norm_num) {}
    (by decide) (by decide) rfl rfl id id "a" "t"
    ⟨"ZZZZZ9999Z", "f", "l", "d", "e", "p", 1⟩).2.2.2.1

/-- C9: the circuit breaker's three-state step relation with the default
tunables: CLOSED opens on the 5th consecutive failure (the count reset by any
success); within 30 s of the last failure OPEN fails fast without a bus call
and without state change; after 30 s the next call passes through HALF_OPEN;
there 2 consecutive successes close the breaker and any failure reopens it,
with the counters reset by these transitions. -/
theorem circuit_breaker_state_machine (cb : Outbox.CircuitBreaker) (now t : ℚ)
    (h5 : cb.failure_threshold = 5) (h30 : cb.timeout = 30)
    (h2s : cb.success_threshold = 2) :
    (cb.state = .CLOSED → 4 ≤ cb.failure_count →
      (Outbox.call cb now true).1.state = .OPEN ∧
      (Outbox.call cb now true).2 = .failed) ∧
    (cb.state = .CLOSED → cb.failure_count + 1 < 5 →
      (Outbox.call cb now true).1.state = .CLOSED) ∧
    (cb.state ≠ .OPEN → (Outbox.call cb now false).1.failure_count = 0) ∧
    (cb.state = .OPEN → cb.last_failure_time = some t → now - t < 30 →
      Outbox.call cb now true = (cb, .failedFast) ∧
      Outbox.call cb now false = (cb, .failedFast)) ∧
    (cb.state = .OPEN → cb.last_failure_time = some t → 30 ≤ now - t →
      (Outbox.call cb now false).1.state = .HALF_OPEN ∧
      (Outbox.call cb now false).2 = .succeeded ∧
      (Outbox.call cb now true).1.state = .OPEN ∧
      (Outbox.call cb now true).2 = .failed) ∧
    (cb.state = .HALF_OPEN → cb.success_count = 1 →
      (Outbox.call cb now false).1.state = .CLOSED ∧
      (Outbox.call cb now false).1.success_count = 0 ∧
      (Outbox.call cb now false).1.failure_count = 0) ∧
    (cb.state = .HALF_OPEN → cb.success_count = 0 →
      (Outbox.call cb now false).1.state = .HALF_OPEN ∧
      (Outbox.call cb now false).1.success_count = 1) ∧
    (cb.state = .HALF_OPEN →
      (Outbox.call cb now true).1.state = .OPEN ∧
      (Outbox.call cb now true).1.success_count = 0) := by
  refine ⟨?_, ?_, ?_, ?_, ?_, ?_, ?_, ?_⟩
  · intro hst hf
    simp [Outbox.call, Outbox.on_failure, hst, h5]
    rw [if_pos hf]
  · intro hst hf
    simp [Outbox.call, Outbox.on_failure, hst, h5]
    rw [if_neg (by omega)]
  · intro hst
    simp [Outbox.call, Outbox.on_success, hst]
    split_ifs <;> rfl
  · intro hst hlt hlt30
    have hn : ¬(30 ≤ now - t) := by linarith
    simp [Outbox.call, hst, hlt, h30, hn]
  · intro hst hlt h30e
    simp [Outbox.call, Outbox.on_success, Outbox.on_failure, hst, hlt, h30, h30e, h2s]
  · intro hst hsc
    simp [Outbox.call, Outbox.on_success, hst, hsc, h2s]
  · intro hst hsc
    simp [Outbox.call, Outbox.on_success, hst, hsc, h2s]
  · intro hst
    simp [Outbox.call, Outbox.on_failure, hst]

/-- C9 witness: a HALF_OPEN breaker with one recorded success closes on its
second consecutive success, counters reset. -/
theorem circuit_breaker_state_machine_witness :
    (Outbox.call { state := .HALF_OPEN, success_count := 1 } 0 false).1.state
      = Outbox.CBState.CLOSED ∧
    (Outbox.call { state := .HALF_OPEN, success_count := 1 } 0 false).1.success_count = 0 ∧
    (Outbox.call { state := .HALF_OPEN, success_count := 1 } 0 false).1.failure_count = 0 :=
  (circuit_breaker_state_machine { state := .HALF_OPEN, success_count := 1 } 0 0
    rfl rfl rfl).2.2.2.2.2.1 rfl rfl

lemma select_batch_spec (table : List Outbox.OutboxEvent) (max_retries batch_size : Nat) :
    (Outbox.select_batch table max_retries batch_size).length ≤ batch_size ∧
    (∀ e ∈ Outbox.select_batch table max_retries batch_size,
      e.published = false ∧ e.retry_count < max_retries ∧ e ∈ table) ∧
    List.Pairwise (fun a b => a.created_at ≤ b.created_at)
      (Outbox.select_batch table max_retries batch_size) ∧
    (∀ e ∈ Outbox.select_batch table max_retries batch_size,
      ∀ f ∈ table.filter (fun x => !x.published && x.retry_count < max_retries),
        f ∉ Outbox.select_batch table max_retries batch_size →
        e.created_at ≤ f.created_at) := by
  haveI hTot : IsTotal Outbox.OutboxEvent (fun a b => a.created_at ≤ b.created_at) :=
    ⟨fun a b => le_total a.created_at b.created_at⟩
  haveI hTrans : IsTrans Outbox.OutboxEvent (fun a b => a.created_at ≤ b.created_at) :=
    ⟨fun a b c => le_trans⟩
  have hsorted := List.sorted_insertionSort (fun a b => a.created_at ≤ b.created_at)
    (table.filter (fun e => !e.published && e.retry_count < max_retries))
  have hperm := List.perm_insertionSort (fun a b => a.created_at ≤ b.created_at)
    (table.filter (fun e => !e.published && e.retry_count < max_retries))
  refine ⟨?_, ?_, ?_, ?_⟩
  · exact List.length_take_le _ _
  · intro e he
    have hmem : e ∈ List.insertionSort (fun a b => a.created_at ≤ b.created_at)
        (table.filter (fun x => !x.published && x.retry_count < max_retries)) :=
      List.take_subset _ _ he
    have := List.mem_filter.mp (hperm.subset hmem)
    have h2 := this.2
    simp only [Bool.and_eq_true, Bool.not_eq_true', decide_eq_true_eq] at h2
    exact ⟨h2.1, h2.2, this.1⟩
  · exact List.Pairwise.sublist (List.take_sublist _ _) hsorted
  · intro e he f hf hnf
    have hf' : f ∈ List.insertionSort (fun a b => a.created_at ≤ b.created_at)
        (table.filter (fun x => !x.published && x.retry_count < max_retries)) :=
      hperm.mem_iff.mpr hf
    rw [← List.take_append_drop batch_size
      (List.insertionSort (fun a b => a.created_at ≤ b.created_at)
        (table.filter (fun x => !x.published && x.retry_count < max_retries)))] at hf'
    rcases List.mem_append.mp hf' with hfL | hfR
    · exact absurd hfL hnf
    · have hp : List.Pairwise (fun a b => a.created_at ≤ b.created_at)
          (List.take batch_size (List.insertionSort (fun a b => a.created_at ≤ b.created_at)
            (table.filter (fun x => !x.published && x.retry_count < max_retries)))
          ++ List.drop batch_size (List.insertionSort (fun a b => a.created_at ≤ b.created_at)
            (table.filter (fun x => !x.published && x.retry_count < max_retries)))) := by
        rw [List.take_append_drop]
        exact hsorted
      exact (List.pairwise_append.mp hp).2.2 e he f hfR


lemma cycle_commits_length (busFails : Nat → Bool) (busErr : Nat → String)
    (times : Nat → ℚ) :
    ∀ (l : List (Nat × Outbox.OutboxEvent)) (tbl : List Outbox.OutboxEvent)
      (commits : List (List Outbox.OutboxEvent)) (cb : Outbox.CircuitBreaker),
    ((l.foldl (Outbox.cycleStep busFails busErr times) (tbl, commits, cb)).2.1).length
      = commits.length + Outbox.cycleFailCount busFails times cb l := by
  intro l
  induction l with
  | nil =>
    intro tbl commits cb
    simp [Outbox.cycleFailCount]
  | cons hd tl ih =>
    intro tbl commits cb
    obtain ⟨i, ev⟩ := hd
    rcases hcall : Outbox.call cb (times i) (busFails i) with ⟨cb', oc⟩
    rcases oc with _ | _ | _ <;>
      simp only [List.foldl_cons, Outbox.cycleStep, Outbox.cycleFailCount, hcall] <;>
      rw [ih] <;> simp <;> omega

/-- C8 (amended): a batch cycle selects at most `batch_size` unpublished rows
with `retry_count < max_retries`, oldest `created_at` first; the
`published=true` markings are committed in the end-of-cycle commit (the last
commit equals the final table), but each failure-path update — `retry_count`
incremented, `error_message` truncated to at most 500 characters — is
committed immediately when the failure is handled, so a cycle performs one
commit per failure plus the final commit, not a single transaction. -/
theorem outbox_cycle_discipline (busFails : Nat → Bool) (busErr : Nat → String)
    (times : Nat → ℚ) (cb : Outbox.CircuitBreaker) (table : List Outbox.OutboxEvent)
    (max_retries batch_size : Nat) :
    (Outbox.select_batch table max_retries batch_size).length ≤ batch_size ∧
    (∀ e ∈ Outbox.select_batch table max_retries batch_size,
      e.published = false ∧ e.retry_count < max_retries ∧ e ∈ table) ∧
    List.Pairwise (fun a b => a.created_at ≤ b.created_at)
      (Outbox.select_batch table max_retries batch_size) ∧
    (∀ e ∈ Outbox.select_batch table max_retries batch_size,
      ∀ f ∈ table.filter (fun x => !x.published && x.retry_count < max_retries),
        f ∉ Outbox.select_batch table max_retries batch_size →
        e.created_at ≤ f.created_at) ∧
    (Outbox.select_batch table max_retries batch_size = [] →
      (Outbox.poll_and_publish busFails busErr times cb table max_retries
        batch_size).commits = []) ∧
    (Outbox.select_batch table max_retries batch_size ≠ [] →
      (Outbox.poll_and_publish busFails busErr times cb table max_retries
          batch_size).commits.getLast?
        = some (Outbox.poll_and_publish busFails busErr times cb table max_retries
            batch_size).table ∧
      (Outbox.poll_and_publish busFails busErr times cb table max_retries
          batch_size).commits.length
        = Outbox.cycleFailCount busFails times cb
            (Outbox.select_batch table max_retries batch_size).enum + 1) ∧
    (∀ e msg, (Outbox.handle_publish_failure e msg).retry_count = e.retry_count + 1 ∧
      (Outbox.handle_publish_failure e msg).error_message
        = some (Outbox.truncate500 msg) ∧
      (Outbox.truncate500 msg).length ≤ 500) := by
  obtain ⟨hlen, hmem, hsort, hold⟩ := select_batch_spec table max_retries batch_size
  refine ⟨hlen, hmem, hsort, hold, ?_, ?_, ?_⟩
  · intro hnil
    simp [Outbox.poll_and_publish, hnil]
  · intro hne
    rcases hfold : (Outbox.select_batch table max_retries batch_size).enum.foldl
        (Outbox.cycleStep busFails busErr times) (table, [], cb) with ⟨tbl, commits, cb'⟩
    have hres : Outbox.poll_and_publish busFails busErr times cb table max_retries
        batch_size = { table := tbl, commits := commits ++ [tbl], breaker := cb' } := by
      unfold Outbox.poll_and_publish
      rw [if_neg (by simpa using hne), hfold]
    have hcl := cycle_commits_length busFails busErr times
      (Outbox.select_batch table max_retries batch_size).enum table [] cb
    rw [hfold] at hcl
    simp only [List.length_nil, Nat.zero_add] at hcl
    constructor
    · rw [hres]
      exact List.getLast?_concat _
    · rw [hres]
      simp [hcl]
  · intro e msg
    refine ⟨rfl, rfl, ?_⟩
    show (msg.data.take 500).length ≤ 500
    rw [List.length_take]
    omega

/-- C8 counterexample: a cycle over one row whose publish fails performs two
`db.commit()` calls — the failure handler's own commit plus the end-of-cycle
commit — refuting the claim that all updates are committed together in one
transaction at the end of the cycle. -/
theorem outbox_failure_commits_midcycle :
    (Outbox.poll_and_publish (fun _ => true) (fun _ => "boom") (fun _ => 0) {}
      [{ id := 1 }] 5 10).commits.length = 2 := by decide

/-- C8 witness: an all-success cycle over one row commits exactly once, at
the end. -/
theorem outbox_cycle_discipline_witness :
    (Outbox.poll_and_publish (fun _ => false) (fun _ => "") (fun _ => 0) {}
        [{ id := 1 }] 5 10).commits.getLast?
      = some (Outbox.poll_and_publish (fun _ => false) (fun _ => "") (fun _ => 0) {}
          [{ id := 1 }] 5 10).table ∧
    (Outbox.poll_and_publish (fun _ => false) (fun _ => "") (fun _ => 0) {}
        [{ id := 1 }] 5 10).commits.length
      = Outbox.cycleFailCount (fun _ => false) (fun _ => 0) {}
          (Outbox.select_batch [{ id := 1 }] 5 10).enum + 1 :=
  (outbox_cycle_discipline (fun _ => false) (fun _ => "") (fun _ => 0) {}
    [{ id := 1 }] 5 10).2.2.2.2.2.1 (by decide)

end LoanPrequal
